import Mathlib

/-!
Verification of the msf-toolbox SharePoint subsystem: a shallow embedding of
the fallback file client, the retrying paginated Graph fetcher, drive
resolution, listing/mapping of items, the auth configuration validation and
the certificate-generation output selection, together with theorems settling
the specification claims.
-/

namespace MsfToolbox

/-! ## Python-level primitives -/

/-- Exceptions that the embedded code can raise. -/
inductive PyExc where
  | notImplementedError
  | attributeError
  | httpError (status : Nat)
  | valueError (msg : String)
  | runtimeError (msg : String)
deriving DecidableEq, Repr

/-- Truthiness of an optional string, as Python evaluates it in a boolean
context: `None` and the empty string are falsy. -/
def pyTruthy : Option String → Bool
  | none => false
  | some s => !s.isEmpty

/-- Rendering of an optional string inside an f-string: Python prints the
literal `None` for the `None` value. -/
def pyStr : Option String → String
  | some s => s
  | none => "None"

/-- Whether the first character list is a prefix of the second. -/
def listIsPrefixOf : List Char → List Char → Bool
  | [], _ => true
  | _ :: _, [] => false
  | a :: as, b :: bs => a == b && listIsPrefixOf as bs

/-- Whether the first character list occurs contiguously in the second. -/
def listContains (needle : List Char) : List Char → Bool
  | [] => listIsPrefixOf needle []
  | b :: bs => listIsPrefixOf needle (b :: bs) || listContains needle bs

/-- Python substring containment `needle in hay` on strings. -/
def pyInStr (needle hay : String) : Bool :=
  listContains needle.data hay.data

/-- Python `s.strip("/")`: remove leading and trailing slash characters. -/
def stripSlashes (s : String) : String :=
  String.mk (((s.data.dropWhile (fun c => c == '/')).reverse.dropWhile
    (fun c => c == '/')).reverse)

/-- Split a character list at its first slash: the part before it and,
when a slash is present, the part after it. -/
def splitAtFirstSlash : List Char → List Char × Option (List Char)
  | [] => ([], none)
  | c :: cs =>
    if c == '/' then ([], some cs)
    else
      let r := splitAtFirstSlash cs
      (c :: r.1, r.2)

/-- Python `s.split("/", 1)`: split on the first slash only. -/
def pySplit1 (s : String) : List String :=
  match splitAtFirstSlash s.data with
  | (a, none) => [String.mk a]
  | (a, some rest) => [String.mk a, String.mk rest]

/-- Characters `urllib.parse.quote` leaves unescaped with the default
`safe="/"`: ASCII alphanumerics, `_.-~`, and the slash. -/
def isUrlSafeChar (c : Char) : Bool :=
  c.isAlphanum || c == '_' || c == '.' || c == '-' || c == '~' || c == '/'

/-- Uppercase hexadecimal digit for a value below 16. -/
def hexUpperDigit (n : Nat) : Char :=
  if n < 10 then Char.ofNat (48 + n) else Char.ofNat (55 + n)

/-- Percent-encoding of one byte, uppercase hex as `urllib.parse.quote`
produces. -/
def percentEncodeByte (b : Nat) : List Char :=
  ['%', hexUpperDigit (b / 16), hexUpperDigit (b % 16)]

/-- UTF-8 byte sequence of one character. -/
def utf8Bytes (c : Char) : List Nat :=
  let n := c.toNat
  if n < 128 then [n]
  else if n < 2048 then [192 + n / 64, 128 + n % 64]
  else if n < 65536 then [224 + n / 4096, 128 + (n / 64) % 64, 128 + n % 64]
  else [240 + n / 262144, 128 + (n / 4096) % 64, 128 + (n / 64) % 64,
    128 + n % 64]

/-- `urllib.parse.quote` with the default `safe="/"`. -/
def urllibQuote (s : String) : String :=
  String.mk (s.data.flatMap (fun c =>
    if isUrlSafeChar c then [c] else (utf8Bytes c).flatMap percentEncodeByte))

/-! ## Shared file-client interface and the fallback orchestrator

Embeds `msftoolbox/sharepoint/interfaces.py` (the `FileClient` protocol) and
`msftoolbox/sharepoint/fallback_client.py`. -/

/-- The eleven operations of the shared `FileClient` protocol. -/
inductive Op where
  | listFilesInFolder
  | listFoldersInFolder
  | recursivelyListFiles
  | recursivelyListFolders
  | downloadFile
  | uploadFile
  | moveFileToFolder
  | renameFile
  | recycleFile
  | createFolderIfNotExists
  | testFolderExistence
deriving DecidableEq, Repr

/-- Which interface operations `GraphFileClient` actually defines as methods
(from `graph/client.py`): every interface method has a definition except
`test_folder_existence` — the Graph client defines `folder_exists` but not
the interface name. -/
def graphDefines : Op → Bool
  | .listFilesInFolder => true
  | .listFoldersInFolder => true
  | .recursivelyListFiles => true
  | .recursivelyListFolders => true
  | .downloadFile => true
  | .uploadFile => true
  | .moveFileToFolder => true
  | .renameFile => true
  | .recycleFile => true
  | .createFolderIfNotExists => true
  | .testFolderExistence => false

/-- `FallbackFileClient._call_with_fallback`: run the primary call; on
`NotImplementedError` run the fallback call; any other outcome is returned
unchanged. -/
def callWithFallback {α : Type} (primary fallback : Except PyExc α) :
    Except PyExc α :=
  match primary with
  | .error .notImplementedError => fallback
  | r => r

/-- One method call on `FallbackFileClient`: the method body first reads the
attribute `self._graph.<op>`; when `GraphFileClient` lacks that attribute
Python raises `AttributeError` before either backend runs; otherwise the
call is dispatched through `_call_with_fallback`. `graphBehavior` and
`legacyBehavior` give the runtime outcome of each backend method. -/
def fallbackClientCall {α : Type} (graphBehavior legacyBehavior : Op → Except PyExc α)
    (op : Op) : Except PyExc α :=
  if graphDefines op then
    callWithFallback (graphBehavior op) (legacyBehavior op)
  else
    .error .attributeError

/-- C1: the fallback contract is broken for `test_folder_existence`:
`GraphFileClient` does not define that interface method, so the call raises
`AttributeError` whatever either backend would do — the legacy backend is
never invoked and the feature-not-available fallback never fires — while
every other interface operation follows the claimed dispatch rule. -/
theorem fallback_testFolderExistence_attribute_error {α : Type}
    (g l : Op → Except PyExc α) :
    fallbackClientCall g l Op.testFolderExistence = .error .attributeError ∧
    graphDefines Op.testFolderExistence = false ∧
    (∀ op : Op, op ≠ Op.testFolderExistence →
      fallbackClientCall g l op = callWithFallback (g op) (l op)) := by
  refine ⟨rfl, rfl, ?_⟩
  intro op hop
  cases op <;> simp [fallbackClientCall, graphDefines] at hop ⊢

/-- C1 witness: at a concrete pair of backend behaviors the fallback client
raises `AttributeError` for `test_folder_existence` even though the legacy
backend returns a value, and `list_files_in_folder` dispatches normally. -/
theorem fallback_testFolderExistence_attribute_error_witness :
    fallbackClientCall (fun _ => (.error .notImplementedError : Except PyExc Bool))
      (fun _ => .ok true) Op.testFolderExistence = .error .attributeError ∧
    fallbackClientCall (fun _ => (.error .notImplementedError : Except PyExc Bool))
      (fun _ => .ok true) Op.listFilesInFolder =
      callWithFallback (Except.error PyExc.notImplementedError) (Except.ok true) := by
  have h := fallback_testFolderExistence_attribute_error
    (fun _ => (.error .notImplementedError : Except PyExc Bool)) (fun _ => .ok true)
  exact ⟨h.1, h.2.2 Op.listFilesInFolder (by decide)⟩

/-! ## The retrying fetcher

Embeds `GraphFileClient._fetch_with_retry` from `sharepoint/graph/client.py`.
The network is modelled by a function giving the response to each attempt;
the uniformly random jitter is modelled by a function giving the jitter drawn
at each attempt. The embedding records, besides the result, the list of URLs
requested and the list of delays slept. -/

/-- An HTTP response as the retry loop inspects it: the status code, the
optional parsed `Retry-After` header, and the JSON body. -/
structure HttpResponse (α : Type) where
  status : Nat
  retryAfter : Option Nat
  body : α
deriving Repr

/-- `RETRY_STATUS_CODES` from the source. -/
def retryStatusCodes : List Nat := [429, 503, 504]

/-- `MAX_RETRIES` from the source. -/
def maxRetries : Nat := 5

/-- `BASE_DELAY` from the source (1.0 seconds). -/
def baseDelay : ℚ := 1

/-- Outcome of `_fetch_with_retry`: the returned body or raised error, the
URLs requested (one per GET issued), and the delays slept, in order. -/
structure RetryOutcome (α : Type) where
  result : Except PyExc α
  requests : List String
  sleeps : List ℚ
deriving Repr

/-- The body of the `for attempt in range(1, MAX_RETRIES + 1)` loop of
`_fetch_with_retry`, recursing on the number of remaining iterations.
Each iteration issues a GET on the same `url`; a status below 400 returns
the body; a failing status outside the retry set raises at once; otherwise
the delay is the `Retry-After` value when present, else
`BASE_DELAY * 2 ^ (attempt - 1)` plus the drawn jitter, and the loop raises
on the final attempt or sleeps and continues. -/
def fetchRetryLoop {α : Type} (url : String) (respond : Nat → HttpResponse α)
    (jitter : Nat → ℚ) : Nat → Nat → RetryOutcome α
  | _, 0 => ⟨.error (.runtimeError "Unreachable"), [], []⟩
  | attempt, fuel + 1 =>
    let resp := respond attempt
    if resp.status < 400 then
      ⟨.ok resp.body, [url], []⟩
    else if resp.status ∉ retryStatusCodes then
      ⟨.error (.httpError resp.status), [url], []⟩
    else
      let delay : ℚ :=
        match resp.retryAfter with
        | some n => (n : ℚ)
        | none => baseDelay * 2 ^ (attempt - 1) + jitter attempt
      if attempt = maxRetries then
        ⟨.error (.httpError resp.status), [url], []⟩
      else
        let rest := fetchRetryLoop url respond jitter (attempt + 1) fuel
        ⟨rest.result, url :: rest.requests, delay :: rest.sleeps⟩

/-- `GraphFileClient._fetch_with_retry url headers` under network behavior
`respond` and jitter draws `jitter`. -/
def fetchWithRetry {α : Type} (url : String) (respond : Nat → HttpResponse α)
    (jitter : Nat → ℚ) : RetryOutcome α :=
  fetchRetryLoop url respond jitter 1 maxRetries

/-- The delay the specification prescribes for a retryable failure at a
given attempt: the `Retry-After` value verbatim when present, otherwise
exponential backoff plus the drawn jitter. -/
def specDelay {α : Type} (resp : HttpResponse α) (attempt : Nat)
    (jitter : Nat → ℚ) : ℚ :=
  match resp.retryAfter with
  | some n => (n : ℚ)
  | none => baseDelay * 2 ^ (attempt - 1) + jitter attempt

theorem fetchRetryLoop_succ_ok {α : Type} (url : String)
    (respond : Nat → HttpResponse α) (jitter : Nat → ℚ) (attempt fuel : Nat)
    (h1 : (respond attempt).status < 400) :
    fetchRetryLoop url respond jitter attempt (fuel + 1) =
      ⟨.ok (respond attempt).body, [url], []⟩ := by
  simp only [fetchRetryLoop]
  rw [if_pos h1]

theorem fetchRetryLoop_succ_fatal {α : Type} (url : String)
    (respond : Nat → HttpResponse α) (jitter : Nat → ℚ) (attempt fuel : Nat)
    (h1 : ¬ (respond attempt).status < 400)
    (h2 : (respond attempt).status ∉ retryStatusCodes) :
    fetchRetryLoop url respond jitter attempt (fuel + 1) =
      ⟨.error (.httpError (respond attempt).status), [url], []⟩ := by
  simp only [fetchRetryLoop]
  rw [if_neg h1, if_pos h2]

theorem fetchRetryLoop_succ_last {α : Type} (url : String)
    (respond : Nat → HttpResponse α) (jitter : Nat → ℚ) (attempt fuel : Nat)
    (h1 : ¬ (respond attempt).status < 400)
    (h2 : (respond attempt).status ∈ retryStatusCodes)
    (h3 : attempt = maxRetries) :
    fetchRetryLoop url respond jitter attempt (fuel + 1) =
      ⟨.error (.httpError (respond attempt).status), [url], []⟩ := by
  simp only [fetchRetryLoop]
  rw [if_neg h1, if_neg (not_not_intro h2), if_pos h3]

theorem fetchRetryLoop_succ_retry {α : Type} (url : String)
    (respond : Nat → HttpResponse α) (jitter : Nat → ℚ) (attempt fuel : Nat)
    (h1 : ¬ (respond attempt).status < 400)
    (h2 : (respond attempt).status ∈ retryStatusCodes)
    (h3 : attempt ≠ maxRetries) :
    fetchRetryLoop url respond jitter attempt (fuel + 1) =
      ⟨(fetchRetryLoop url respond jitter (attempt + 1) fuel).result,
        url :: (fetchRetryLoop url respond jitter (attempt + 1) fuel).requests,
        specDelay (respond attempt) attempt jitter ::
          (fetchRetryLoop url respond jitter (attempt + 1) fuel).sleeps⟩ := by
  simp only [fetchRetryLoop]
  rw [if_neg h1, if_neg (not_not_intro h2), if_neg h3]
  rfl

theorem retry_status_not_lt_400 {s : Nat} (h : s ∈ retryStatusCodes) :
    ¬ s < 400 := by
  simp only [retryStatusCodes, List.mem_cons, List.not_mem_nil, or_false] at h
  rcases h with rfl | rfl | rfl <;> decide

theorem fetchRetryLoop_requests_length_le {α : Type} (url : String)
    (respond : Nat → HttpResponse α) (jitter : Nat → ℚ) :
    ∀ fuel attempt,
      (fetchRetryLoop url respond jitter attempt fuel).requests.length ≤ fuel := by
  intro fuel
  induction fuel with
  | zero => intro attempt; simp [fetchRetryLoop]
  | succ fuel ih =>
    intro attempt
    by_cases h1 : (respond attempt).status < 400
    · rw [fetchRetryLoop_succ_ok url respond jitter attempt fuel h1]; simp
    · by_cases h2 : (respond attempt).status ∈ retryStatusCodes
      · by_cases h3 : attempt = maxRetries
        · rw [fetchRetryLoop_succ_last url respond jitter attempt fuel h1 h2 h3]
          simp
        · rw [fetchRetryLoop_succ_retry url respond jitter attempt fuel h1 h2 h3]
          simpa using ih (attempt + 1)
      · rw [fetchRetryLoop_succ_fatal url respond jitter attempt fuel h1 h2]; simp

theorem fetchRetryLoop_requests_all_url {α : Type} (url : String)
    (respond : Nat → HttpResponse α) (jitter : Nat → ℚ) :
    ∀ fuel attempt u,
      u ∈ (fetchRetryLoop url respond jitter attempt fuel).requests → u = url := by
  intro fuel
  induction fuel with
  | zero => intro attempt u hu; simp [fetchRetryLoop] at hu
  | succ fuel ih =>
    intro attempt u hu
    by_cases h1 : (respond attempt).status < 400
    · rw [fetchRetryLoop_succ_ok url respond jitter attempt fuel h1] at hu
      simpa using hu
    · by_cases h2 : (respond attempt).status ∈ retryStatusCodes
      · by_cases h3 : attempt = maxRetries
        · rw [fetchRetryLoop_succ_last url respond jitter attempt fuel h1 h2 h3] at hu
          simpa using hu
        · rw [fetchRetryLoop_succ_retry url respond jitter attempt fuel h1 h2 h3] at hu
          simp only [List.mem_cons] at hu
          rcases hu with hu | hu
          · exact hu
          · exact ih (attempt + 1) u hu
      · rw [fetchRetryLoop_succ_fatal url respond jitter attempt fuel h1 h2] at hu
        simpa using hu

theorem fetchRetryLoop_sleeps_get {α : Type} (url : String)
    (respond : Nat → HttpResponse α) (jitter : Nat → ℚ) :
    ∀ fuel attempt i,
      i < (fetchRetryLoop url respond jitter attempt fuel).sleeps.length →
      (fetchRetryLoop url respond jitter attempt fuel).sleeps[i]? =
        some (specDelay (respond (attempt + i)) (attempt + i) jitter) := by
  intro fuel
  induction fuel with
  | zero => intro attempt i h; simp [fetchRetryLoop] at h
  | succ fuel ih =>
    intro attempt i h
    by_cases h1 : (respond attempt).status < 400
    · rw [fetchRetryLoop_succ_ok url respond jitter attempt fuel h1] at h
      simp at h
    · by_cases h2 : (respond attempt).status ∈ retryStatusCodes
      · by_cases h3 : attempt = maxRetries
        · rw [fetchRetryLoop_succ_last url respond jitter attempt fuel h1 h2 h3] at h
          simp at h
        · rw [fetchRetryLoop_succ_retry url respond jitter attempt fuel h1 h2 h3] at h ⊢
          cases i with
          | zero => simp
          | succ i =>
            have h'' : i < (fetchRetryLoop url respond jitter (attempt + 1)
                fuel).sleeps.length := by
              simpa using h
            have hih := ih (attempt + 1) i h''
            simp only [List.getElem?_cons_succ]
            rw [hih]
            have harith : attempt + 1 + i = attempt + (i + 1) := by omega
            rw [harith]
      · rw [fetchRetryLoop_succ_fatal url respond jitter attempt fuel h1 h2] at h
        simp at h

theorem fetchRetryLoop_all_retryable {α : Type} (url : String)
    (respond : Nat → HttpResponse α) (jitter : Nat → ℚ) :
    ∀ fuel attempt, attempt + fuel = maxRetries + 1 → 0 < fuel →
      (∀ a, attempt ≤ a → a ≤ maxRetries → (respond a).status ∈ retryStatusCodes) →
      (fetchRetryLoop url respond jitter attempt fuel).result =
        .error (.httpError (respond maxRetries).status) ∧
      (fetchRetryLoop url respond jitter attempt fuel).requests.length = fuel := by
  intro fuel
  induction fuel with
  | zero => intro attempt _ h0 _; omega
  | succ fuel ih =>
    intro attempt hsum _ hall
    have hmem : (respond attempt).status ∈ retryStatusCodes :=
      hall attempt le_rfl (by omega)
    have hge : ¬ (respond attempt).status < 400 := retry_status_not_lt_400 hmem
    by_cases h3 : attempt = maxRetries
    · have hf0 : fuel = 0 := by omega
      subst hf0
      rw [fetchRetryLoop_succ_last url respond jitter attempt 0 hge hmem h3, h3]
      exact ⟨rfl, rfl⟩
    · have hrec := ih (attempt + 1) (by omega) (by omega)
        (fun a ha hb => hall a (by omega) hb)
      rw [fetchRetryLoop_succ_retry url respond jitter attempt fuel hge hmem h3]
      refine ⟨hrec.1, ?_⟩
      simpa using hrec.2

theorem fetchRetryLoop_fatal_at {α : Type} (url : String)
    (respond : Nat → HttpResponse α) (jitter : Nat → ℚ) :
    ∀ fuel attempt k, attempt + fuel = maxRetries + 1 → attempt ≤ k →
      k ≤ maxRetries →
      (∀ a, attempt ≤ a → a < k → (respond a).status ∈ retryStatusCodes) →
      400 ≤ (respond k).status → (respond k).status ∉ retryStatusCodes →
      (fetchRetryLoop url respond jitter attempt fuel).result =
        .error (.httpError (respond k).status) ∧
      (fetchRetryLoop url respond jitter attempt fuel).requests.length =
        k - attempt + 1 ∧
      (fetchRetryLoop url respond jitter attempt fuel).sleeps.length =
        k - attempt := by
  intro fuel
  induction fuel with
  | zero => intro attempt k hsum hak hk _ _ _; omega
  | succ fuel ih =>
    intro attempt k hsum hak hk hall hge hnot
    by_cases heq : attempt = k
    · subst heq
      have h1 : ¬ (respond attempt).status < 400 := by omega
      rw [fetchRetryLoop_succ_fatal url respond jitter attempt fuel h1 hnot]
      refine ⟨rfl, by simp, by simp⟩
    · have hlt : attempt < k := by omega
      have hmem : (respond attempt).status ∈ retryStatusCodes :=
        hall attempt le_rfl hlt
      have h1 : ¬ (respond attempt).status < 400 := retry_status_not_lt_400 hmem
      have h3 : attempt ≠ maxRetries := by omega
      have hrec := ih (attempt + 1) k (by omega) (by omega) hk
        (fun a ha hb => hall a (by omega) hb) hge hnot
      rw [fetchRetryLoop_succ_retry url respond jitter attempt fuel h1 hmem h3]
      refine ⟨hrec.1, ?_, ?_⟩
      · simp only [List.length_cons, hrec.2.1]
        omega
      · simp only [List.length_cons, hrec.2.2]
        omega

/-- C2: behavior of `_fetch_with_retry` under any network behavior and any
jitter draws: at most 5 GETs are ever issued, all of them to the same URL;
every recorded sleep before attempt `i + 2` equals the `Retry-After` value
verbatim when that header is present and `base * 2 ^ (attempt - 1)` plus the
drawn jitter otherwise; five consecutive retryable statuses (429/503/504)
make it raise the fifth HTTP error after exactly 5 attempts; a failing
status outside the retry set on the first attempt raises immediately, with
one request and no sleep; and in general a failing status outside the retry
set at ANY attempt `k` reached after retryable failures propagates that very
HTTP error at once — exactly `k` requests, `k - 1` sleeps, no further
retry. -/
theorem fetch_with_retry_spec {α : Type} (url : String)
    (respond : Nat → HttpResponse α) (jitter : Nat → ℚ) :
    (fetchWithRetry url respond jitter).requests.length ≤ 5 ∧
    (∀ u ∈ (fetchWithRetry url respond jitter).requests, u = url) ∧
    (∀ i, i < (fetchWithRetry url respond jitter).sleeps.length →
      (fetchWithRetry url respond jitter).sleeps[i]? =
        some (specDelay (respond (1 + i)) (1 + i) jitter)) ∧
    ((∀ a, 1 ≤ a → a ≤ 5 → (respond a).status ∈ retryStatusCodes) →
      (fetchWithRetry url respond jitter).result =
        .error (.httpError (respond 5).status) ∧
      (fetchWithRetry url respond jitter).requests.length = 5) ∧
    (400 ≤ (respond 1).status → (respond 1).status ∉ retryStatusCodes →
      fetchWithRetry url respond jitter =
        ⟨.error (.httpError (respond 1).status), [url], []⟩) ∧
    (∀ k, 1 ≤ k → k ≤ 5 →
      (∀ a, 1 ≤ a → a < k → (respond a).status ∈ retryStatusCodes) →
      400 ≤ (respond k).status → (respond k).status ∉ retryStatusCodes →
      (fetchWithRetry url respond jitter).result =
        .error (.httpError (respond k).status) ∧
      (fetchWithRetry url respond jitter).requests.length = k ∧
      (fetchWithRetry url respond jitter).sleeps.length = k - 1) := by
  refine ⟨fetchRetryLoop_requests_length_le url respond jitter maxRetries 1,
    fun u hu => fetchRetryLoop_requests_all_url url respond jitter maxRetries 1 u hu,
    fun i h => fetchRetryLoop_sleeps_get url respond jitter maxRetries 1 i h,
    fun hall => fetchRetryLoop_all_retryable url respond jitter maxRetries 1
      (by simp [maxRetries]) (by simp [maxRetries]) hall, ?_, ?_⟩
  · intro hge hnot
    have h1 : ¬ (respond 1).status < 400 := by omega
    simp [fetchWithRetry, maxRetries, fetchRetryLoop, h1, hnot]
  · intro k hk1 hk5 hall hge hnot
    have h := fetchRetryLoop_fatal_at url respond jitter maxRetries 1 k
      (by simp [maxRetries]) hk1 (by simpa [maxRetries] using hk5) hall hge hnot
    refine ⟨h.1, ?_, ?_⟩
    · rw [fetchWithRetry, h.2.1]
      omega
    · rw [fetchWithRetry, h.2.2]

/-- C2 witness: a concrete network behavior — five straight 429 responses,
the first with `Retry-After: 2`, the rest without — exercises every
hypothesis: the fetcher requests the same URL exactly 5 times, sleeps 2
seconds after the first attempt and `2 ^ (a - 1) + 1/10` after later ones,
and raises the 429 HTTP error; a behavior answering 404 first raises
immediately; and a mixed behavior answering 429, 429, then 404 propagates
the 404 after exactly 3 requests and 2 sleeps. -/
theorem fetch_with_retry_spec_witness :
    (fetchWithRetry "https://g/x"
        (fun a => if a = 1 then ⟨429, some 2, ()⟩ else ⟨429, none, ()⟩)
        (fun _ => 1/10)).result = .error (.httpError 429) ∧
    (fetchWithRetry "https://g/x"
        (fun a => if a = 1 then ⟨429, some 2, ()⟩ else ⟨429, none, ()⟩)
        (fun _ => 1/10)).requests.length = 5 ∧
    (fetchWithRetry "https://g/y" (fun _ => ⟨404, none, ()⟩) (fun _ => 1/10)) =
      ⟨.error (.httpError 404), ["https://g/y"], []⟩ ∧
    (fetchWithRetry "https://g/z"
        (fun a => if a ≤ 2 then ⟨429, some 1, ()⟩ else ⟨404, none, ()⟩)
        (fun _ => 1/10)).result = .error (.httpError 404) ∧
    (fetchWithRetry "https://g/z"
        (fun a => if a ≤ 2 then ⟨429, some 1, ()⟩ else ⟨404, none, ()⟩)
        (fun _ => 1/10)).requests.length = 3 ∧
    (fetchWithRetry "https://g/z"
        (fun a => if a ≤ 2 then ⟨429, some 1, ()⟩ else ⟨404, none, ()⟩)
        (fun _ => 1/10)).sleeps.length = 2 := by
  have h1 := fetch_with_retry_spec "https://g/x"
    (fun a => if a = 1 then ⟨429, some 2, ()⟩ else ⟨429, none, ()⟩)
    (fun _ => 1/10)
  have h2 := fetch_with_retry_spec "https://g/y"
    (fun _ => (⟨404, none, ()⟩ : HttpResponse Unit)) (fun _ => 1/10)
  have h3 := (fetch_with_retry_spec "https://g/z"
    (fun a => if a ≤ 2 then (⟨429, some 1, ()⟩ : HttpResponse Unit)
      else ⟨404, none, ()⟩)
    (fun _ => 1/10)).2.2.2.2.2 3 (by decide) (by decide)
    (by
      intro a ha hb
      have h2a : a ≤ 2 := by omega
      simp [h2a, retryStatusCodes])
    (by decide) (by decide)
  refine ⟨?_, ?_, ?_, h3.1.trans (by norm_num), h3.2.1, h3.2.2⟩
  · exact ((h1.2.2.2.1 (by decide)).1).trans (by norm_num)
  · exact (h1.2.2.2.1 (by decide)).2
  · exact h2.2.2.2.2.1 (by decide) (by decide)

/-! ## The paginated fetcher

Embeds `GraphFileClient._paged_fetch`. A successful JSON response is a page:
its `value` array and its optional `@odata.nextLink` field. The network is a
function from the requested URL to the page it answers (the claim quantifies
over successful page responses only). The generator yields the elements of
each page in order and, while a next-link is present, requests exactly that
URL next; the fuel argument bounds the number of pages followed so the
embedding is total — every finite chain is covered by a large enough fuel. -/

/-- One parsed JSON page body: `value` and `@odata.nextLink`. -/
structure GraphPage (α : Type) where
  value : List α
  nextLink : Option String
deriving Repr, DecidableEq

/-- `GraphFileClient._paged_fetch` run to completion: fetch the page for the
current URL, yield its `value` elements, stop when `@odata.nextLink` is
absent, otherwise continue from the next-link URL. -/
def pagedFetch {α : Type} (fetch : String → GraphPage α) : Nat → String → List α
  | 0, _ => []
  | fuel + 1, url =>
    let page := fetch url
    page.value ++
      (match page.nextLink with
      | none => []
      | some link => pagedFetch fetch fuel link)

/-- The chain of pages the fetcher visits: the page answered for the current
URL, then — exactly when its next-link is present — the pages visited from
the next-link URL. -/
def pagesAlong {α : Type} (fetch : String → GraphPage α) :
    Nat → String → List (GraphPage α)
  | 0, _ => []
  | fuel + 1, url =>
    let page := fetch url
    page ::
      (match page.nextLink with
      | none => []
      | some link => pagesAlong fetch fuel link)

/-- C3: the paged fetcher yields exactly the concatenation, in response
order, of the `value` arrays of the pages visited along the next-link chain;
an empty first page with no continuation link yields zero items; and when
the first page links to a second, terminal page the output is all of page
one's items followed by all of page two's. -/
theorem paged_fetch_spec {α : Type} (fetch : String → GraphPage α)
    (fuel : Nat) (url : String) :
    pagedFetch fetch fuel url =
      ((pagesAlong fetch fuel url).map GraphPage.value).flatten ∧
    ((fetch url).value = [] → (fetch url).nextLink = none → 1 ≤ fuel →
      pagedFetch fetch fuel url = []) ∧
    (∀ link, (fetch url).nextLink = some link →
      (fetch link).nextLink = none → 2 ≤ fuel →
      pagedFetch fetch fuel url = (fetch url).value ++ (fetch link).value) := by
  refine ⟨?_, ?_, ?_⟩
  · induction fuel generalizing url with
    | zero => simp [pagedFetch, pagesAlong]
    | succ fuel ih =>
      simp only [pagedFetch, pagesAlong, List.map_cons, List.flatten_cons]
      cases h : (fetch url).nextLink with
      | none => simp
      | some link => simpa using ih link
  · intro hv hn hf
    obtain ⟨fuel', rfl⟩ : ∃ k, fuel = k + 1 := ⟨fuel - 1, by omega⟩
    simp [pagedFetch, hv, hn]
  · intro link h1 h2 hf
    obtain ⟨fuel', rfl⟩ : ∃ k, fuel = k + 2 := ⟨fuel - 2, by omega⟩
    simp [pagedFetch, h1, h2]

/-- C3 witness: the spec's concrete scenarios — page 1 holding items
`[10, 20]` with next-link `L2` and page 2 holding `[30]` with no next-link
yields `[10, 20, 30]`; a fetch answering an empty page with no next-link
yields `[]`. -/
theorem paged_fetch_spec_witness :
    pagedFetch
      (fun u => if u = "L2" then ⟨[30], none⟩ else ⟨[10, 20], some "L2"⟩)
      2 "L1" = ([10, 20, 30] : List Nat) ∧
    pagedFetch (fun _ => (⟨[], none⟩ : GraphPage Nat)) 1 "L1" = [] := by
  constructor
  · have h := (paged_fetch_spec
      (fun u => if u = "L2" then ⟨[30], none⟩ else ⟨[10, 20], some "L2"⟩)
      2 "L1").2.2 "L2" (by decide) (by decide) (by decide)
    rw [h]
    decide
  · have h := (paged_fetch_spec (fun _ => (⟨[], none⟩ : GraphPage Nat))
      1 "L1").2.1 rfl rfl (by decide)
    exact h

/-! ## Drive resolution

Embeds `GraphFileClient.get_library_id_from_url` and
`parse_server_relative_url`, plus `get_encoded_relative_path` from
`graph/utils.py`. -/

/-- The fields of a Graph drive record that the resolution code reads. -/
structure Drive where
  id : String
  name : String
  webUrl : String
deriving DecidableEq, Repr

/-- First path segment of the server-relative URL:
`server_relative_url.strip("/").split("/")[0]`, i.e. everything before the
first remaining slash. -/
def libraryNameOf (serverRelativeUrl : String) : String :=
  String.mk (splitAtFirstSlash (stripSlashes serverRelativeUrl).data).1

/-- The match test applied to each drive in page order, exactly as the
source writes it: the encoded library name occurs in the drive's web URL,
OR the raw library name occurs in the drive's `name` — Python's `in`, i.e.
substring containment on both sides. -/
def driveMatchTest (libraryName libraryUrl : String) (d : Drive) : Bool :=
  pyInStr libraryUrl d.webUrl || pyInStr libraryName d.name

/-- The `for item in self._paged_fetch(url)` loop: return the id of the
first drive passing the match test, or fall through to `None`. -/
def findLibraryId (libraryName libraryUrl : String) : List Drive → Option String
  | [] => none
  | d :: rest =>
    if driveMatchTest libraryName libraryUrl d then some d.id
    else findLibraryId libraryName libraryUrl rest

/-- `GraphFileClient.get_library_id_from_url`, with the paged drive listing
of the site supplied as the flattened list `drives` in page order. -/
def getLibraryIdFromUrl (drives : List Drive) (serverRelativeUrl : String) :
    Option String :=
  let libraryName := libraryNameOf serverRelativeUrl
  let libraryUrl := urllibQuote libraryName
  findLibraryId libraryName libraryUrl drives

/-- Modelled from the claim's words, for comparison with the source: the
claimed match test uses substring containment on the web URL but EXACT
equality on the drive name. -/
def claimedDriveMatchTest (libraryName libraryUrl : String) (d : Drive) : Bool :=
  pyInStr libraryUrl d.webUrl || d.name == libraryName

/-- Modelled from the claim's words: first drive matching
`claimedDriveMatchTest` wins. -/
def claimedGetLibraryIdFromUrl (drives : List Drive) (serverRelativeUrl : String) :
    Option String :=
  let libraryName := libraryNameOf serverRelativeUrl
  let libraryUrl := urllibQuote libraryName
  (drives.find? (claimedDriveMatchTest libraryName libraryUrl)).map Drive.id

/-- C4 counterexample: for the server-relative URL `/Doc/sub` and a single
drive named `MyDocs` whose web URL does not contain `Doc`, the code selects
that drive — `Doc` is a substring of the name `MyDocs` although not equal to
it and not contained in the web URL — while the claim says no drive can be
selected. -/
theorem get_library_id_substring_counterexample :
    getLibraryIdFromUrl [⟨"drive1", "MyDocs", "https://contoso.example/sites/s"⟩]
      "/Doc/sub" = some "drive1" ∧
    claimedGetLibraryIdFromUrl
      [⟨"drive1", "MyDocs", "https://contoso.example/sites/s"⟩]
      "/Doc/sub" = none := by
  constructor <;> decide

theorem findLibraryId_none_iff (n u : String) (drives : List Drive) :
    findLibraryId n u drives = none ↔
      ∀ d ∈ drives, driveMatchTest n u d = false := by
  induction drives with
  | nil => simp [findLibraryId]
  | cons d rest ih =>
    by_cases hm : driveMatchTest n u d
    · simp [findLibraryId, hm]
    · have hfalse : driveMatchTest n u d = false := by simpa using hm
      simp only [findLibraryId, List.mem_cons]
      rw [if_neg hm, ih]
      constructor
      · intro h d2 hd2
        rcases hd2 with rfl | hd2
        · exact hfalse
        · exact h d2 hd2
      · intro h d2 hd2
        exact h d2 (Or.inr hd2)

theorem findLibraryId_some_iff (n u : String) (drives : List Drive) (i : String) :
    findLibraryId n u drives = some i ↔
      ∃ pre d post, drives = pre ++ d :: post ∧
        driveMatchTest n u d = true ∧ i = d.id ∧
        ∀ d2 ∈ pre, driveMatchTest n u d2 = false := by
  induction drives with
  | nil =>
    simp only [findLibraryId]
    constructor
    · intro h
      cases h
    · rintro ⟨pre, d, post, hsplit, -⟩
      cases pre <;> simp at hsplit
  | cons d rest ih =>
    by_cases hm : driveMatchTest n u d
    · simp only [findLibraryId, hm, if_true]
      constructor
      · intro hi
        exact ⟨[], d, rest, by simp, hm, by simpa using hi.symm, by simp⟩
      · rintro ⟨pre, d1, post, hsplit, hmatch, hid, hpre⟩
        cases pre with
        | nil =>
          simp only [List.nil_append, List.cons.injEq] at hsplit
          rw [hid, hsplit.1]
        | cons p pre =>
          simp only [List.cons_append, List.cons.injEq] at hsplit
          have hcontra : driveMatchTest n u d = false := by
            rw [hsplit.1]
            exact hpre p (by simp)
          rw [hm] at hcontra
          cases hcontra
    · have hfalse : driveMatchTest n u d = false := by simpa using hm
      simp only [findLibraryId]
      rw [if_neg hm, ih]
      constructor
      · rintro ⟨pre, d1, post, hsplit, hmatch, hid, hpre⟩
        refine ⟨d :: pre, d1, post, by simp [hsplit], hmatch, hid, ?_⟩
        intro d2 hd2
        rcases List.mem_cons.mp hd2 with rfl | hd2
        · exact hfalse
        · exact hpre d2 hd2
      · rintro ⟨pre, d1, post, hsplit, hmatch, hid, hpre⟩
        cases pre with
        | nil =>
          simp only [List.nil_append, List.cons.injEq] at hsplit
          rw [← hsplit.1] at hmatch
          rw [hmatch] at hfalse
          cases hfalse
        | cons p pre =>
          simp only [List.cons_append, List.cons.injEq] at hsplit
          refine ⟨pre, d1, post, hsplit.2, hmatch, hid, ?_⟩
          intro d2 hd2
          exact hpre d2 (by simp [hd2])

/-- C4 amended: resolving a server-relative URL takes the first path segment
as the library name and returns the id of the first drive, in page order,
whose web URL contains the URL-encoded library name as a substring OR whose
name CONTAINS the library name as a substring (not exact name equality);
`None` is returned exactly when no drive passes that test, and a returned id
always comes from a passing drive that is preceded only by failing drives. -/
theorem get_library_id_first_match (drives : List Drive) (url : String) :
    (getLibraryIdFromUrl drives url = none ↔
      ∀ d ∈ drives, driveMatchTest (libraryNameOf url)
        (urllibQuote (libraryNameOf url)) d = false) ∧
    (∀ i : String, getLibraryIdFromUrl drives url = some i ↔
      ∃ pre d post, drives = pre ++ d :: post ∧
        driveMatchTest (libraryNameOf url) (urllibQuote (libraryNameOf url)) d = true ∧
        i = d.id ∧
        ∀ d2 ∈ pre, driveMatchTest (libraryNameOf url)
          (urllibQuote (libraryNameOf url)) d2 = false) :=
  ⟨findLibraryId_none_iff (libraryNameOf url) (urllibQuote (libraryNameOf url)) drives,
    fun i => findLibraryId_some_iff (libraryNameOf url)
      (urllibQuote (libraryNameOf url)) drives i⟩

/-- C4 witness: with two drives both containing the library name `Docs`,
the first in page order wins; with none matching, `None` comes back, via the
amended characterization applied at those concrete inputs. -/
theorem get_library_id_first_match_witness :
    getLibraryIdFromUrl
      [⟨"a", "Docs", "https://x/Docs"⟩, ⟨"b", "Docs2", "https://x/Docs2"⟩]
      "/Docs/f" = some "a" ∧
    getLibraryIdFromUrl [⟨"a", "Pics", "https://x/Pics"⟩] "/Docs/f" = none := by
  constructor
  · exact ((get_library_id_first_match
      [⟨"a", "Docs", "https://x/Docs"⟩, ⟨"b", "Docs2", "https://x/Docs2"⟩]
      "/Docs/f").2 "a").mpr
      ⟨[], ⟨"a", "Docs", "https://x/Docs"⟩, [⟨"b", "Docs2", "https://x/Docs2"⟩],
        by decide, by decide, by decide, by decide⟩
  · exact (get_library_id_first_match [⟨"a", "Pics", "https://x/Pics"⟩]
      "/Docs/f").1.mpr (by decide)

/-! ## Auth configuration validation

Embeds `msftoolbox/azure/auth/config.py`: the `Strategy` enum, the
`AuthConfig` settings model, the existing-path field validator and the
cross-field validator. Construction inputs are the supplied field values;
`none` means the field was not supplied (and pydantic fills the field
default, which is `None` for every field except `redirect_uri`). The
filesystem is modelled by `pathExists`. -/

/-- The supported authentication strategies. -/
inductive Strategy where
  | defaultAuth
  | cli
  | managedIdentity
  | clientSecret
  | clientCertificate
  | interactiveBrowser
  | usernamePassword
deriving DecidableEq, Repr

/-- The validated configuration record. Secret-typed fields hold the exact
supplied string (`SecretStr` stores the value and returns it unchanged from
`get_secret_value`). -/
structure AuthConfig where
  strategy : Strategy
  tenant_id : Option String
  client_id : Option String
  client_secret : Option String
  certificate_path : Option String
  certificate_password : Option String
  federated_token_file : Option String
  username : Option String
  password : Option String
  redirect_uri : Option String
  authority : Option String
deriving DecidableEq, Repr

/-- The declared pydantic default of the `redirect_uri` field. -/
def defaultRedirectUri : Option String := some "http://localhost:8400"

/-- `AuthConfig._ensure_existing_path`: a supplied path must exist. -/
def ensureExistingPath (pathExists : String → Bool) :
    Option String → Except String (Option String)
  | some p => if pathExists p then .ok (some p) else .error "Path does not exist"
  | none => .ok none

/-- `AuthConfig._cross_field_validation`: the required-field check for the
selected strategy, with Python truthiness on each field. -/
def crossFieldValidation (cfg : AuthConfig) : Except String AuthConfig :=
  match cfg.strategy with
  | .clientSecret =>
    if pyTruthy cfg.tenant_id && pyTruthy cfg.client_id &&
        pyTruthy cfg.client_secret then .ok cfg
    else .error "client_secret requires tenant_id, client_id, and client_secret."
  | .clientCertificate =>
    if pyTruthy cfg.tenant_id && pyTruthy cfg.client_id &&
        pyTruthy cfg.certificate_path then .ok cfg
    else .error
      "client_certificate requires tenant_id, client_id, and certificate_path."
  | .usernamePassword =>
    if pyTruthy cfg.tenant_id && pyTruthy cfg.client_id &&
        pyTruthy cfg.username && pyTruthy cfg.password &&
        pyTruthy cfg.client_secret then .ok cfg
    else .error
      "username_password requires tenant_id, client_id, username, password and client_secret."
  | .interactiveBrowser =>
    if pyTruthy cfg.tenant_id && pyTruthy cfg.client_id &&
        pyTruthy cfg.redirect_uri then .ok cfg
    else .error
      "interactive_broswer requires tenant_id, client_id and redirect_uri (set in App Registration)."
  | _ => .ok cfg

/-- Constructing `AuthConfig(...)`: pydantic applies the per-field defaults
to unsupplied fields (only `redirect_uri` has a non-`None` default), runs
the existing-path field validators, then the cross-field model validator.
`redirect` distinguishes not-supplied (`none`, default applies) from an
explicitly supplied value. -/
def mkAuthConfig (pathExists : String → Bool) (strategy : Strategy)
    (tenant client secret certPath certPw fedTok user pw : Option String)
    (redirect : Option (Option String)) (authority : Option String) :
    Except String AuthConfig :=
  match ensureExistingPath pathExists certPath with
  | .error e => .error e
  | .ok cp =>
    match ensureExistingPath pathExists fedTok with
    | .error e => .error e
    | .ok ft =>
      crossFieldValidation
        ⟨strategy, tenant, client, secret, cp, certPw, ft, user, pw,
          redirect.getD defaultRedirectUri, authority⟩

/-- Whether a construction attempt succeeded. -/
def exceptOk {ε α : Type} : Except ε α → Bool
  | .ok _ => true
  | .error _ => false

/-- Modelled from the spec (table in section 4.1): the minimum required
field set per strategy, checked on the effective field values. The table
requires tenant, client id and redirect URI for interactive-browser; the
`redirectEffective` argument receives the redirect URI after the field
default is applied. -/
def tableRequiredFieldsOk (s : Strategy)
    (tenant client secret certPath user pw redirectEffective : Option String) :
    Bool :=
  match s with
  | .clientSecret => pyTruthy tenant && pyTruthy client && pyTruthy secret
  | .clientCertificate => pyTruthy tenant && pyTruthy client && pyTruthy certPath
  | .usernamePassword => pyTruthy tenant && pyTruthy client && pyTruthy user &&
      pyTruthy pw && pyTruthy secret
  | .interactiveBrowser => pyTruthy tenant && pyTruthy client &&
      pyTruthy redirectEffective
  | _ => true

theorem crossFieldValidation_ok_eq (cfg cfg2 : AuthConfig)
    (h : crossFieldValidation cfg = .ok cfg2) : cfg2 = cfg := by
  obtain ⟨s, t, c, cs, cp, cpw, ft, u, p, r, a⟩ := cfg
  cases s <;> simp only [crossFieldValidation] at h <;> (try split at h) <;>
    simp_all

/-- C5 counterexample: constructing an interactive-browser configuration
with tenant and client id but WITHOUT supplying a redirect URI succeeds —
the field default `http://localhost:8400` fills in — where the claim says
construction must fail. -/
theorem interactive_browser_default_redirect_counterexample :
    mkAuthConfig (fun _ => true) Strategy.interactiveBrowser
      (some "t") (some "c") none none none none none none none none =
      .ok ⟨Strategy.interactiveBrowser, some "t", some "c", none, none, none,
        none, none, none, some "http://localhost:8400", none⟩ := by
  rfl

/-- C5 amended: for every strategy, construction succeeds exactly when the
section 4.1 table's required fields are all present (non-empty) — where the
redirect URI is taken AFTER its field default `http://localhost:8400` is
applied, so an interactive-browser configuration constructed without
supplying a redirect URI succeeds with the default stored, and fails only
when the redirect URI is explicitly supplied as empty/None; on success the
stored values, the secrets included, are exactly the supplied ones. Supplied
paths are assumed to exist (path existence is validated separately). -/
theorem auth_config_validation (pathExists : String → Bool) (s : Strategy)
    (tenant client secret certPath certPw fedTok user pw : Option String)
    (redirect : Option (Option String)) (authority : Option String)
    (hcp : ∀ p, certPath = some p → pathExists p = true)
    (hft : ∀ p, fedTok = some p → pathExists p = true) :
    exceptOk (mkAuthConfig pathExists s tenant client secret certPath certPw
        fedTok user pw redirect authority) =
      tableRequiredFieldsOk s tenant client secret certPath user pw
        (redirect.getD defaultRedirectUri) ∧
    ∀ cfg, mkAuthConfig pathExists s tenant client secret certPath certPw
        fedTok user pw redirect authority = .ok cfg →
      cfg = ⟨s, tenant, client, secret, certPath, certPw, fedTok, user, pw,
        redirect.getD defaultRedirectUri, authority⟩ := by
  have hc : ensureExistingPath pathExists certPath = .ok certPath := by
    cases certPath with
    | none => rfl
    | some p => simp [ensureExistingPath, hcp p rfl]
  have hf : ensureExistingPath pathExists fedTok = .ok fedTok := by
    cases fedTok with
    | none => rfl
    | some p => simp [ensureExistingPath, hft p rfl]
  constructor
  · simp only [mkAuthConfig, hc, hf]
    cases s <;> simp only [crossFieldValidation, tableRequiredFieldsOk] <;>
      (try split) <;> simp_all [exceptOk]
  · intro cfg hcfg
    simp only [mkAuthConfig, hc, hf] at hcfg
    exact crossFieldValidation_ok_eq _ _ hcfg

/-- C5 witness: the amended characterization applied at concrete inputs —
client-secret with all three required fields constructs successfully and the
stored secret is exactly the supplied one; client-secret without the secret
fails; interactive-browser with an explicitly empty redirect URI fails. -/
theorem auth_config_validation_witness :
    exceptOk (mkAuthConfig (fun _ => true) Strategy.clientSecret (some "t")
      (some "c") (some "sec") none none none none none none none) = true ∧
    (mkAuthConfig (fun _ => true) Strategy.clientSecret (some "t") (some "c")
      (some "sec") none none none none none none none).map
      AuthConfig.client_secret = .ok (some "sec") ∧
    exceptOk (mkAuthConfig (fun _ => true) Strategy.clientSecret (some "t")
      (some "c") none none none none none none none none) = false ∧
    exceptOk (mkAuthConfig (fun _ => true) Strategy.interactiveBrowser
      (some "t") (some "c") none none none none none none (some none) none) =
      false := by
  have h1 := auth_config_validation (fun _ => true) Strategy.clientSecret
    (some "t") (some "c") (some "sec") none none none none none none none
    (fun p hp => by cases hp) (fun p hp => by cases hp)
  have h2 := auth_config_validation (fun _ => true) Strategy.clientSecret
    (some "t") (some "c") none none none none none none none none
    (fun p hp => by cases hp) (fun p hp => by cases hp)
  have h3 := auth_config_validation (fun _ => true) Strategy.interactiveBrowser
    (some "t") (some "c") none none none none none none (some none) none
    (fun p hp => by cases hp) (fun p hp => by cases hp)
  refine ⟨by rw [h1.1]; rfl, ?_, by rw [h2.1]; rfl, by rw [h3.1]; rfl⟩
  have hok : mkAuthConfig (fun _ => true) Strategy.clientSecret (some "t")
      (some "c") (some "sec") none none none none none none none =
      .ok ⟨Strategy.clientSecret, some "t", some "c", some "sec", none, none,
        none, none, none, some "http://localhost:8400", none⟩ := by
    rfl
  rw [hok]
  rfl

/-! ## Item mapping and folder listings

Embeds `FileItem`/`FolderItem` from `sharepoint/models.py`, the Graph
`_map_file_properties`/`_map_folder_properties` and the listing loops of
`list_files_in_folder`/`list_folders_in_folder`, and the legacy client's
mapping functions. The metadata bag type is a parameter: the Graph backend
stores the raw item, the legacy backend the properties object. -/

/-- The keys of a Graph drive-item JSON object that the client reads. The
three `has...Key` flags model membership of the `file`, `listItem` and
`folder` keys; `folderChildCount` models `item["folder"]["childCount"]`. -/
structure SpItem where
  name : Option String
  createdDateTime : Option String
  lastModifiedDateTime : Option String
  hasFileKey : Bool
  hasListItemKey : Bool
  hasFolderKey : Bool
  folderChildCount : Option Nat
deriving DecidableEq, Repr

/-- `models.FileItem`, with the metadata bag type as a parameter. -/
structure FileItem (μ : Type) where
  name : Option String
  server_relative_url : Option String
  time_created : Option String
  time_last_modified : Option String
  extra : Option μ
deriving DecidableEq, Repr

/-- `models.FolderItem`, with the metadata bag type as a parameter. -/
structure FolderItem (μ : Type) where
  name : Option String
  server_relative_url : Option String
  time_created : Option String
  time_last_modified : Option String
  item_count : Option Nat
  extra : Option μ
deriving DecidableEq, Repr

/-- `GraphFileClient._map_file_properties` (Python default of
`keep_metadata` is `True`). -/
def mapFileProperties (spFile : SpItem) (keepMetadata : Bool) : FileItem SpItem :=
  ⟨spFile.name, none, spFile.createdDateTime, spFile.lastModifiedDateTime,
    if keepMetadata then some spFile else none⟩

/-- `GraphFileClient._map_folder_properties` (Python default of
`keep_metadata` is `True`). -/
def mapFolderProperties (spFolder : SpItem) (keepMetadata : Bool) :
    FolderItem SpItem :=
  ⟨spFolder.name, none, spFolder.createdDateTime, spFolder.lastModifiedDateTime,
    spFolder.folderChildCount, if keepMetadata then some spFolder else none⟩

/-- The accumulation loop of `GraphFileClient.list_files_in_folder` over the
fetched children: keep items carrying a `file` key OR a `listItem` key, and
map each with `self._map_file_properties(item)` — the call site passes no
second argument, so Python's default `keep_metadata=True` applies and the
method's own `keep_metadata` parameter is never consulted. -/
def graphListFilesInFolder (fetched : List SpItem) (keepMetadata : Bool) :
    List (FileItem SpItem) :=
  fetched.foldl
    (fun acc it =>
      if it.hasFileKey || it.hasListItemKey then
        acc ++ [mapFileProperties it true]
      else acc)
    []

/-- The accumulation loop of `GraphFileClient.list_folders_in_folder`: keep
items carrying a `folder` key, mapped with `self._map_folder_properties(item)`
— again without forwarding `keep_metadata`. -/
def graphListFoldersInFolder (fetched : List SpItem) (keepMetadata : Bool) :
    List (FolderItem SpItem) :=
  fetched.foldl
    (fun acc it =>
      if it.hasFolderKey then acc ++ [mapFolderProperties it true] else acc)
    []

/-- The fields of a legacy `sp_file.properties` object that the client
reads. -/
structure LegacyProps where
  pName : Option String
  pServerRelativeUrl : Option String
  pTimeCreated : Option String
  pTimeLastModified : Option String
  pItemCount : Option Nat
deriving DecidableEq, Repr

/-- `LegacyFileClient._map_file_properties`. -/
def legacyMapFileProperties (props : LegacyProps) (keepMetadata : Bool) :
    FileItem LegacyProps :=
  ⟨props.pName, props.pServerRelativeUrl, props.pTimeCreated,
    props.pTimeLastModified, if keepMetadata then some props else none⟩

/-- `LegacyFileClient.list_files_in_folder`: every file of the folder is
mapped with the caller's `keep_metadata` forwarded. -/
def legacyListFilesInFolder (files : List LegacyProps) (keepMetadata : Bool) :
    List (FileItem LegacyProps) :=
  files.map (fun f => legacyMapFileProperties f keepMetadata)

theorem foldl_filter_append {α β : Type} (p : α → Bool) (m : α → β) :
    ∀ (l : List α) (acc : List β),
      l.foldl (fun acc it => if p it then acc ++ [m it] else acc) acc =
        acc ++ (l.filter p).map m := by
  intro l
  induction l with
  | nil => intro acc; simp
  | cons x xs ih =>
    intro acc
    by_cases hp : p x
    · simp [hp, ih]
    · simp [hp, ih]

/-- C6: the Graph listing loops never forward the caller's `keep_metadata`
to the mapping helpers — the Python call site uses the helper's default
`True` — so even with `keep_metadata=False` (the default) every returned
item's metadata bag holds the full backend-native property set instead of
`None`; the legacy backend, by contrast, honors the flag both ways. This
contradicts the Graph client's own docstring (`If False, returns only name
and server URL; if True, stores full properties in extra`). -/
theorem graph_keep_metadata_ignored (it : SpItem) (hfile : it.hasFileKey = true)
    (props : LegacyProps) :
    (graphListFilesInFolder [it] false).map (fun f => f.extra) = [some it] ∧
    (graphListFoldersInFolder [it] false).map (fun f => f.extra) =
      (if it.hasFolderKey then [some it] else []) ∧
    (legacyListFilesInFolder [props] false).map (fun f => f.extra) = [none] ∧
    (legacyListFilesInFolder [props] true).map (fun f => f.extra) =
      [some props] := by
  refine ⟨?_, ?_, rfl, rfl⟩
  · simp [graphListFilesInFolder, mapFileProperties, hfile]
  · by_cases hf : it.hasFolderKey <;>
      simp [graphListFoldersInFolder, mapFolderProperties, hf]

/-- C6 witness: at a concrete item carrying a `file` key and a concrete
properties object, the Graph listing with `keep_metadata=False` returns the
full item in `extra` while the legacy listing returns `None`. -/
theorem graph_keep_metadata_ignored_witness :
    (graphListFilesInFolder [⟨some "a.txt", none, none, true, false, false, none⟩]
        false).map (fun f => f.extra) =
      [some ⟨some "a.txt", none, none, true, false, false, none⟩] ∧
    (legacyListFilesInFolder [⟨some "a.txt", none, none, none, none⟩]
        false).map (fun f => f.extra) = [none] := by
  have h := graph_keep_metadata_ignored
    ⟨some "a.txt", none, none, true, false, false, none⟩ rfl
    ⟨some "a.txt", none, none, none, none⟩
  exact ⟨h.1, h.2.2.1⟩

/-- C7 counterexample: an item carrying a `listItem` key but NO `file` key
is included by `list_files_in_folder` — the source filter is
`"file" in item or "listItem" in item` — where the claim says an item is
included exactly when it carries a `file` key. -/
theorem graph_list_files_listItem_counterexample :
    (graphListFilesInFolder [⟨some "x", none, none, false, true, false, none⟩]
      false).length = 1 ∧
    SpItem.hasFileKey ⟨some "x", none, none, false, true, false, none⟩ = false := by
  constructor <;> rfl

/-- C7 amended: `list_files_in_folder` includes an item exactly when it
carries a `file` key OR a `listItem` key (not only `file`), and
`list_folders_in_folder` exactly when it carries a `folder` key; included
items are mapped into FileItem/FolderItem respectively, in order. -/
theorem graph_list_filter_spec (items : List SpItem) (keep : Bool) :
    graphListFilesInFolder items keep =
      (items.filter (fun it => it.hasFileKey || it.hasListItemKey)).map
        (fun it => mapFileProperties it true) ∧
    graphListFoldersInFolder items keep =
      (items.filter (fun it => it.hasFolderKey)).map
        (fun it => mapFolderProperties it true) := by
  constructor
  · have h := foldl_filter_append
      (fun it => it.hasFileKey || it.hasListItemKey)
      (fun it => mapFileProperties it true) items []
    simpa [graphListFilesInFolder] using h
  · have h := foldl_filter_append (fun it => it.hasFolderKey)
      (fun it => mapFolderProperties it true) items []
    simpa [graphListFoldersInFolder] using h

/-! ## Certificate generation output selection

Embeds `generate_self_signed_certificate` from `azure/auth/certificate.py`
up to its observable effects: the order of key generation and file writes,
and the error raised, if any. Cryptographic byte content is outside the
claims. -/

/-- Observable effects of a certificate-generation run, in order. -/
inductive CertEvent where
  | keyGen
  | writeCombined (path : String)
  | writeCert (path : String)
  | writeKey (path : String)
deriving DecidableEq, Repr

/-- A run: the effects that happened, and the error message raised, if
any. -/
structure CertRun where
  events : List CertEvent
  error : Option String
deriving DecidableEq, Repr

/-- `generate_self_signed_certificate`: validate the output selection, then
generate the RSA key, then build the subject attribute list from the truthy
subject fields, then write the combined PEM when a combined path was given,
else the separate certificate and key files. -/
def generateSelfSignedCertificate
    (emailAddress commonName countryName localityName stateOrProvinceName
      organizationName organizationalUnitName : Option String)
    (certPath keyPath combinedPemPath : Option String) : CertRun :=
  let separateMode := certPath.isSome && keyPath.isSome
  let combinedMode := combinedPemPath.isSome
  if !separateMode && !combinedMode then
    ⟨[], some "Specify at minimum a combined_pem_path or both the cert_path and key_path."⟩
  else
    let attributes :=
      [countryName, stateOrProvinceName, localityName, organizationName,
        organizationalUnitName, commonName, emailAddress].filter pyTruthy
    if attributes.isEmpty then
      ⟨[.keyGen], some "At least one subject name attribute must be provided."⟩
    else
      match combinedPemPath with
      | some p => ⟨[.keyGen, .writeCombined p], none⟩
      | none =>
        match certPath, keyPath with
        | some cp, some kp => ⟨[.keyGen, .writeCert cp, .writeKey kp], none⟩
        | _, _ => ⟨[.keyGen], some "TypeError"⟩

/-- C8 counterexample: a call supplying BOTH a combined path and both
separate paths is accepted — no exclusivity error — and writes only the
combined file, so the two output modes are not mutually exclusive as the
claim states. -/
theorem cert_modes_not_exclusive_counterexample :
    generateSelfSignedCertificate none (some "CN") none none none none none
      (some "c.crt") (some "k.key") (some "comb.pem") =
      ⟨[.keyGen, .writeCombined "comb.pem"], none⟩ := by
  rfl

/-- C8 amended: the output-mode selection is validated before any key
material is generated, and a call selecting no usable output path (neither
a combined path nor both a cert path and a key path) fails without
generating a key or writing any file; but the two modes are NOT mutually
exclusive — when both are selected the call succeeds and the combined mode
takes precedence, writing only the combined file; with only the separate
mode selected, the cert and key files are written. -/
theorem cert_output_selection
    (e cn c l st o ou certPath keyPath combinedPemPath : Option String) :
    (¬ (certPath.isSome = true ∧ keyPath.isSome = true) →
      combinedPemPath = none →
      generateSelfSignedCertificate e cn c l st o ou certPath keyPath
        combinedPemPath =
        ⟨[], some "Specify at minimum a combined_pem_path or both the cert_path and key_path."⟩) ∧
    ((generateSelfSignedCertificate e cn c l st o ou certPath keyPath
        combinedPemPath).error =
      some "Specify at minimum a combined_pem_path or both the cert_path and key_path." →
      (generateSelfSignedCertificate e cn c l st o ou certPath keyPath
        combinedPemPath).events = []) ∧
    (∀ p, combinedPemPath = some p →
      ([c, st, l, o, ou, cn, e].filter pyTruthy).isEmpty = false →
      generateSelfSignedCertificate e cn c l st o ou certPath keyPath
        combinedPemPath = ⟨[.keyGen, .writeCombined p], none⟩) ∧
    (∀ cp kp, combinedPemPath = none → certPath = some cp → keyPath = some kp →
      ([c, st, l, o, ou, cn, e].filter pyTruthy).isEmpty = false →
      generateSelfSignedCertificate e cn c l st o ou certPath keyPath
        combinedPemPath = ⟨[.keyGen, .writeCert cp, .writeKey kp], none⟩) := by
  refine ⟨?_, ?_, ?_, ?_⟩
  · intro hsep hcomb
    subst hcomb
    have hs : (certPath.isSome && keyPath.isSome) = false := by
      cases hc : certPath.isSome <;> cases hk : keyPath.isSome <;> simp_all
    simp [generateSelfSignedCertificate, hs]
  · intro herr
    by_cases hguard :
        (!(certPath.isSome && keyPath.isSome) && !combinedPemPath.isSome) = true
    · simp only [generateSelfSignedCertificate]
      rw [if_pos hguard]
    · exfalso
      simp only [generateSelfSignedCertificate] at herr
      rw [if_neg (by simpa using hguard)] at herr
      by_cases hattr : ([c, st, l, o, ou, cn, e].filter pyTruthy).isEmpty = true
      · rw [if_pos hattr] at herr
        simp at herr
      · rw [if_neg hattr] at herr
        cases hcp : combinedPemPath with
        | some p => rw [hcp] at herr; simp at herr
        | none =>
          rw [hcp] at herr
          cases hc : certPath <;> cases hk : keyPath <;>
            rw [hc, hk] at herr <;> simp at herr
  · intro p hp hattr
    have hguard :
        (!(certPath.isSome && keyPath.isSome) && !combinedPemPath.isSome) = false := by
      simp [hp]
    simp only [generateSelfSignedCertificate]
    rw [if_neg (by rw [hguard]; decide), if_neg (by rw [hattr]; decide), hp]
  · intro cp kp hcomb hcp hkp hattr
    have hguard :
        (!(certPath.isSome && keyPath.isSome) && !combinedPemPath.isSome) = false := by
      simp [hcp, hkp]
    simp only [generateSelfSignedCertificate]
    rw [if_neg (by rw [hguard]; decide), if_neg (by rw [hattr]; decide),
      hcomb, hcp, hkp]

/-- C8 witness: the amended characterization at concrete inputs — no output
path at all fails with no key generated and nothing written; separate-only
writes cert then key after the key generation. -/
theorem cert_output_selection_witness :
    generateSelfSignedCertificate none (some "CN") none none none none none
      none none none =
      ⟨[], some "Specify at minimum a combined_pem_path or both the cert_path and key_path."⟩ ∧
    generateSelfSignedCertificate none (some "CN") none none none none none
      (some "c.crt") (some "k.key") none =
      ⟨[.keyGen, .writeCert "c.crt", .writeKey "k.key"], none⟩ := by
  have h := cert_output_selection none (some "CN") none none none none none
    none none none
  have h2 := cert_output_selection none (some "CN") none none none none none
    (some "c.crt") (some "k.key") none
  exact ⟨h.1 (by simp) rfl,
    h2.2.2.2 "c.crt" "k.key" rfl rfl rfl (by rfl)⟩

/-! ## Folder existence probe and upload precondition

Embeds `GraphFileClient.folder_exists` and the guard of
`GraphFileClient.upload_file`. -/

/-- `response.raise_for_status()`: raises `HTTPError` exactly for status
codes of 400 and above. -/
def raiseForStatus (status : Nat) : Except PyExc Unit :=
  if 400 ≤ status then .error (.httpError status) else .ok ()

/-- `GraphFileClient.folder_exists`: issue the probe GET, return `True` on
success; the `except requests.exceptions.HTTPError` arm turns every HTTP
error — any failing status — into `False`. Non-HTTP exceptions would
propagate (none arise from `raise_for_status`). -/
def graphFolderExists (probeStatus : Nat) : Except PyExc Bool :=
  match raiseForStatus probeStatus with
  | .ok _ => .ok true
  | .error (.httpError _) => .ok false
  | .error e => .error e

/-- `GraphFileClient.upload_file` up to the PUT: reject files over 250 MB,
then require the existence probe to succeed, else raise
`ValueError("The destination folder does not exist.")`; on success the PUT
response is checked and mapped. -/
def graphUploadFile (fileSize : Nat) (probeStatus : Nat)
    (putResponse : HttpResponse SpItem) : Except PyExc (FileItem SpItem) :=
  if fileSize > 250 * 1024 * 1024 then
    .error (.runtimeError "File size exceeds 250MB limit for this upload method.")
  else
    match graphFolderExists probeStatus with
    | .error e => .error e
    | .ok false => .error (.valueError "The destination folder does not exist.")
    | .ok true =>
      match raiseForStatus putResponse.status with
      | .error e => .error e
      | .ok _ => .ok (mapFileProperties putResponse.body true)

/-- C9: `folder_exists` returns `False` for EVERY failing probe status —
401, 403 and 5xx included, not only 404 — and never propagates the
`HTTPError`; consequently `upload_file` on a file within the size limit
raises `ValueError("The destination folder does not exist.")` whenever the
probe fails for any reason. -/
theorem folder_exists_false_on_http_error (status : Nat) (h : 400 ≤ status)
    (fileSize : Nat) (hs : fileSize ≤ 250 * 1024 * 1024)
    (put : HttpResponse SpItem) :
    graphFolderExists status = .ok false ∧
    graphUploadFile fileSize status put =
      .error (.valueError "The destination folder does not exist.") := by
  have hfe : graphFolderExists status = .ok false := by
    simp [graphFolderExists, raiseForStatus, h]
  refine ⟨hfe, ?_⟩
  simp only [graphUploadFile]
  rw [if_neg (by omega), hfe]

/-- C9 witness: the statuses 401, 403 and 500 all make the probe report a
missing folder and the upload of a 1-byte file fail with the
destination-folder error. -/
theorem folder_exists_false_on_http_error_witness :
    (graphFolderExists 401 = .ok false ∧
      graphUploadFile 1 401 ⟨201, none, ⟨none, none, none, true, false, false, none⟩⟩ =
        .error (.valueError "The destination folder does not exist.")) ∧
    graphFolderExists 403 = .ok false ∧
    graphFolderExists 500 = .ok false := by
  refine ⟨folder_exists_false_on_http_error 401 (by decide) 1 (by decide)
      ⟨201, none, ⟨none, none, none, true, false, false, none⟩⟩, ?_, ?_⟩
  · exact (folder_exists_false_on_http_error 403 (by decide) 0 (by decide)
      ⟨201, none, ⟨none, none, none, true, false, false, none⟩⟩).1
  · exact (folder_exists_false_on_http_error 500 (by decide) 0 (by decide)
      ⟨201, none, ⟨none, none, none, true, false, false, none⟩⟩).1

/-! ## Drive id `None` reaching request URLs

Embeds `parse_server_relative_url`, `get_encoded_relative_path` and the URL
construction of `list_files_in_folder` (shared by the other path-based
operations). -/

/-- `get_encoded_relative_path` from `graph/utils.py`: everything after the
first slash of the stripped URL, percent-encoded; empty when there is no
second segment. -/
def getEncodedRelativePath (serverRelativeUrl : String) : String :=
  match splitAtFirstSlash (stripSlashes serverRelativeUrl).data with
  | (_, some rest) => urllibQuote (String.mk rest)
  | (_, none) => ""

/-- `GraphFileClient.parse_server_relative_url`. -/
def parseServerRelativeUrl (drives : List Drive) (serverRelativeUrl : String) :
    Option String × String :=
  (getLibraryIdFromUrl drives serverRelativeUrl,
    getEncodedRelativePath serverRelativeUrl)

/-- The children-endpoint URL built by `list_files_in_folder` and
`list_folders_in_folder`: the f-string renders a `None` drive id as the
literal text `None`. -/
def graphChildrenUrl (driveId : Option String) (relativePath : String) : String :=
  let pathSegment :=
    if relativePath.isEmpty then "" else ":/" ++ relativePath ++ ":"
  "https://graph.microsoft.com/v1.0/drives/" ++ pyStr driveId ++ "/root" ++
    pathSegment ++ "/children"

/-- C10: when no drive passes the match test, `get_library_id_from_url`
returns `None` instead of raising, `parse_server_relative_url` returns
`(None, encoded_path)`, and the children request URL that
`list_files_in_folder` then builds starts with
`https://graph.microsoft.com/v1.0/drives/None/root` — the literal text
`None` standing where the drive id belongs — so the operation proceeds to
issue the request rather than failing locally. -/
theorem missing_library_builds_none_url (drives : List Drive) (url : String)
    (hnone : ∀ d ∈ drives, driveMatchTest (libraryNameOf url)
      (urllibQuote (libraryNameOf url)) d = false) :
    getLibraryIdFromUrl drives url = none ∧
    parseServerRelativeUrl drives url = (none, getEncodedRelativePath url) ∧
    ∃ rest, graphChildrenUrl (parseServerRelativeUrl drives url).1
        (parseServerRelativeUrl drives url).2 =
      "https://graph.microsoft.com/v1.0/drives/None/root" ++ rest := by
  have hid : getLibraryIdFromUrl drives url = none :=
    (findLibraryId_none_iff _ _ drives).mpr hnone
  refine ⟨hid, ?_, ?_⟩
  · simp [parseServerRelativeUrl, hid]
  · refine ⟨(if (getEncodedRelativePath url).isEmpty then ""
      else ":/" ++ getEncodedRelativePath url ++ ":") ++ "/children", ?_⟩
    simp only [parseServerRelativeUrl, hid, graphChildrenUrl, pyStr]
    rw [show "https://graph.microsoft.com/v1.0/drives/None/root" =
      "https://graph.microsoft.com/v1.0/drives/" ++ "None" ++ "/root" from rfl]
    simp [String.append_assoc]

/-- C10 witness: with a single non-matching drive and the URL
`/Missing/sub dir`, resolution yields `None` and the built children URL is
exactly the `None`-drive URL with the encoded remainder. -/
theorem missing_library_builds_none_url_witness :
    getLibraryIdFromUrl [⟨"a", "Pics", "https://x/Pics"⟩] "/Missing/sub dir" =
      none ∧
    graphChildrenUrl
      (parseServerRelativeUrl [⟨"a", "Pics", "https://x/Pics"⟩] "/Missing/sub dir").1
      (parseServerRelativeUrl [⟨"a", "Pics", "https://x/Pics"⟩] "/Missing/sub dir").2 =
      "https://graph.microsoft.com/v1.0/drives/None/root:/sub%20dir:/children" := by
  have h := missing_library_builds_none_url [⟨"a", "Pics", "https://x/Pics"⟩]
    "/Missing/sub dir" (by decide)
  exact ⟨h.1, by rfl⟩

end MsfToolbox
